import Mathlib

/-!
Verification of the health-database core (src/health_db_for_giu.py and
src/patient_class.py) against its natural-language specification.

The Python code is shallowly embedded: JSON-decoded request dictionaries
become association lists of string keys to dynamically typed `PyValue`s,
Python's exact-type check `type(v) is t` becomes equality of `PyType` tags,
and code that can raise an uncaught Python exception returns
`Except PyError _`, with the exception class recorded in `PyError`.

The persistence methods `Patient.save` and `Patient.get_patient_from_db`
are called by src/health_db_for_giu.py but are not defined anywhere in the
repository sources; they are modelled from the specification (its section 6:
a durable, immediately consistent store keyed by the medical record number).
The MongoDB collection is modelled as an explicit list of patient documents
threaded through the operations.
-/

/-- A JSON-decoded Python value, as the routes receive them.  Only the
primitive shapes the validators distinguish are needed.  A Python float is
carried as a rational: the validators only inspect its type tag, never its
arithmetic. -/
inductive PyValue : Type where
  | pstr (s : String)
  | pint (n : Int)
  | pfloat (q : ℚ)
  | pbool (b : Bool)
  | pnone
deriving DecidableEq

/-- A Python primitive type object, as passed in `expected_types`. -/
inductive PyType : Type where
  | str
  | int
  | float
  | bool
  | noneT
deriving DecidableEq

/-- Python's `type(v)`.  Exact tags: `type(True) is int` is false in Python,
and `bool` is likewise a distinct tag here, so no coercion happens. -/
def typeOf : PyValue → PyType
  | PyValue.pstr _ => PyType.str
  | PyValue.pint _ => PyType.int
  | PyValue.pfloat _ => PyType.float
  | PyValue.pbool _ => PyType.bool
  | PyValue.pnone => PyType.noneT

/-- The apostrophe character, used by Python `repr`. -/
def q39 : String := String.singleton (Char.ofNat 39)

/-- Python's `str(t)` for a type object `t`, e.g. `<class 'str'>`,
as interpolated into the type-mismatch message. -/
def typeRepr : PyType → String
  | PyType.str => "<class " ++ q39 ++ "str" ++ q39 ++ ">"
  | PyType.int => "<class " ++ q39 ++ "int" ++ q39 ++ ">"
  | PyType.float => "<class " ++ q39 ++ "float" ++ q39 ++ ">"
  | PyType.bool => "<class " ++ q39 ++ "bool" ++ q39 ++ ">"
  | PyType.noneT => "<class " ++ q39 ++ "NoneType" ++ q39 ++ ">"

/-- A JSON-decoded request dictionary (Python dict keys are unique; the
first binding wins on lookup, matching dict semantics for well-formed
inputs). -/
abbrev Dict := List (String × PyValue)

/-- An uncaught Python exception class.  A value of this type escaping an
embedded function models the corresponding Python function raising. -/
inductive PyError : Type where
  | typeError
  | valueError
  | keyError
  | attributeError
deriving DecidableEq

/-- The message `"Key {} is not found in input."` of `validate_post_input`. -/
def missingKeyMsg (k : String) : String :=
  "Key " ++ k ++ " is not found in input."

/-- The message `"The value for key {} is not the expected type of {}."`
of `validate_post_input`. -/
def typeMismatchMsg (k : String) (t : PyType) : String :=
  "The value for key " ++ k ++ " is not the expected type of " ++ typeRepr t ++ "."

/-- The `for ex_key, ex_type in zip(expected_keys, expected_types)` loop of
`validate_post_input` (health_db_for_giu.py lines 80-86), over the already
zipped list.  `Except.ok ()` is the Python return value `True`; an error
carries the returned message string. -/
def validate_loop (in_data : Dict) : List (String × PyType) → Except String Unit
  | [] => Except.ok ()
  | (k, t) :: rest =>
    match List.lookup k in_data with
    | none => Except.error (missingKeyMsg k)
    | some v =>
      if typeOf v == t then validate_loop in_data rest
      else Except.error (typeMismatchMsg k t)

/-- `validate_post_input(in_data, expected_keys, expected_types)`
(health_db_for_giu.py lines 56-86). -/
def validate_post_input (in_data : Dict) (expected_keys : List String)
    (expected_types : List PyType) : Except String Unit :=
  validate_loop in_data (expected_keys.zip expected_types)

/-- The list `valid_blood_types` of `validate_blood_type`
(health_db_for_giu.py line 90). -/
def valid_blood_types : List String :=
  ["A+", "A-", "B+", "B-", "AB+", "AB-", "O+", "O-"]

/-- `validate_blood_type(blood_type)` (health_db_for_giu.py lines 89-94).
The argument is a string: the route only reaches this call after
`validate_post_input` has checked that the value for key `blood_type`
is of type `str`. -/
def validate_blood_type (blood_type : String) : Except String Unit :=
  if blood_type ∈ valid_blood_types then Except.ok ()
  else Except.error ("Given blood type of " ++ blood_type ++ " is not valid.")

/-- Characters Python's `int(str)` conversion strips from both ends. -/
def pySpace (c : Char) : Bool :=
  c == ' ' || c == '\t' || c == '\n' || c == '\r' || c == '\x0b' || c == '\x0c'

/-- Strip `pySpace` characters from both ends of a character list. -/
def pyStrip (cs : List Char) : List Char :=
  ((cs.dropWhile pySpace).reverse.dropWhile pySpace).reverse

/-- Digits of a Python integer literal after its first digit: decimal digits
with single underscores allowed between digits (as Python `int` accepts),
accumulating the value. -/
def pyDigitsAux : Nat → List Char → Option Nat
  | acc, [] => some acc
  | acc, ('_' :: c :: cs) =>
    if c.isDigit then pyDigitsAux (acc * 10 + (c.toNat - 48)) cs else none
  | _, ['_'] => none
  | acc, (c :: cs) =>
    if c.isDigit then pyDigitsAux (acc * 10 + (c.toNat - 48)) cs else none

/-- A nonempty digit sequence (underscore separators allowed between digits),
as Python `int` accepts after the optional sign. -/
def pyDigits : List Char → Option Nat
  | [] => none
  | c :: cs => if c.isDigit then pyDigitsAux (c.toNat - 48) cs else none

/-- Python's `int(raw)` on a string: surrounding whitespace stripped, an
optional sign, then decimal digits.  `none` models the `ValueError` raised
on any other string. -/
def pyInt (s : String) : Option Int :=
  match pyStrip s.data with
  | '+' :: cs => (pyDigits cs).map (fun n => (n : Int))
  | '-' :: cs => (pyDigits cs).map (fun n => -(n : Int))
  | cs => (pyDigits cs).map (fun n => (n : Int))

/-- `validate_patient_id(patient_id)` (health_db_for_giu.py lines 247-252):
`int(patient_id)` with `ValueError` caught and turned into the return value
`False`, modelled as `none`.  (`some 0` and `none` stay distinct, as the
caller's `is False` check keeps `0` distinct from `False` in Python.) -/
def validate_patient_id (patient_id : String) : Option Int :=
  pyInt patient_id

/-- The `Patient` class of src/patient_class.py.  Field types follow the
specification's data model (section 3): the routes validate `str`/`int`
shapes before any value reaches a `Patient`. -/
structure Patient : Type where
  first_name : String
  last_name : String
  mrn : Int
  age : Int
  tests : List (String × Int)
deriving DecidableEq

/-- `Patient.__init__(first_name, last_name, mrn, age=0, tests=None)`
(patient_class.py lines 3-12): a `None` tests argument becomes the empty
list.  Python's defaults are `age=0`, `tests=None`. -/
def Patient.init (first_name last_name : String) (mrn : Int) (age : Int)
    (tests : Option (List (String × Int))) : Patient :=
  ⟨first_name, last_name, mrn, age,
    match tests with
    | none => []
    | some t => t⟩

/-- The patient with its `tests` list replaced, as left behind by the
in-place mutation of `Patient.add_test_result`. -/
def setTests (p : Patient) (t : List (String × Int)) : Patient :=
  ⟨p.first_name, p.last_name, p.mrn, p.age, t⟩

/-- `Patient.add_test_result(test_name, test_value)` (patient_class.py
lines 53-55): appends the pair at the end of `tests`. -/
def Patient.add_test_result (p : Patient) (test_name : String)
    (test_value : Int) : Patient :=
  setTests p (p.tests ++ [(test_name, test_value)])

/-- `Patient.__eq__` (patient_class.py lines 19-29) between two `Patient`
values: the four fields `first_name`, `last_name`, `mrn`, `age` are
compared; `tests` is not. -/
def patientEq (p other : Patient) : Bool :=
  p.first_name == other.first_name && p.last_name == other.last_name
    && p.mrn == other.mrn && p.age == other.age

/-- Python truthiness of the `is_minor()` result as used in
`create_output`: `None` and `False` are falsy. -/
def truthy : Option Bool → Bool
  | none => false
  | some b => b

/-- `Patient.is_minor` (patient_class.py lines 44-51): returns `None` for
the age-0 "unknown" sentinel (the `print` side effect is not modelled),
`True` under 18, `False` otherwise. -/
def Patient.is_minor (p : Patient) : Option Bool :=
  if p.age = 0 then none
  else if p.age < 18 then some true
  else some false

/-- Python `repr` of one `(test_name, test_value)` tuple as `str.format`
renders list elements, e.g. `('glucose', 90)` (names containing quote or
escape characters would be escaped by Python; no claim exercises those). -/
def reprTest (t : String × Int) : String :=
  "(" ++ q39 ++ t.1 ++ q39 ++ ", " ++ toString t.2 ++ ")"

/-- Python `str` of the `tests` list, e.g. `[('glucose', 90)]`. -/
def reprTests (l : List (String × Int)) : String :=
  "[" ++ String.intercalate ", " (l.map reprTest) ++ "]"

/-- `Patient.create_output` (patient_class.py lines 31-42).  The status is
`Minor` exactly when `self.is_minor()` is truthy. -/
def Patient.create_output (p : Patient) : String :=
  "Name: " ++ p.first_name ++ " " ++ p.last_name ++ "\n"
    ++ "MRN: " ++ toString p.mrn ++ "\n"
    ++ "Status: " ++ (if truthy p.is_minor then "Minor" else "Adult") ++ "\n"
    ++ "Test Results: " ++ reprTests p.tests ++ "\n"

/-- The MongoDB `Patients` collection, modelled as a list of patient
documents. -/
abbrev DB := List Patient

/-- Python `==` between an integer field and a dynamically typed value:
numeric values compare by value across `int`/`bool`/`float`, everything
else is unequal. -/
def pyNumEq (m : Int) : PyValue → Bool
  | PyValue.pint n => m == n
  | PyValue.pbool b => m == (if b then 1 else 0)
  | PyValue.pfloat q => (m : ℚ) == q
  | PyValue.pstr _ => false
  | PyValue.pnone => false

/-- Modelled from the spec: `Patient.get_patient_from_db(mrn)` is called in
health_db_for_giu.py (line 210) but is not defined in the repository
sources.  Section 6 specifies the persistence collaborator's
`loadByIdentifier(id) -> patient|absent`: the stored document whose medical
record number equals the given value, or absent. -/
def get_patient_from_db (db : DB) (mrn : PyValue) : Option Patient :=
  db.find? (fun p => pyNumEq p.mrn mrn)

/-- `get_patient(mrn)` (health_db_for_giu.py lines 191-214): the Python
`False` returned when `get_patient_from_db` gives `None` is modelled as
`none`. -/
def get_patient (db : DB) (mrn : PyValue) : Option Patient :=
  get_patient_from_db db mrn

/-- Modelled from the spec: `Patient.save` is called in health_db_for_giu.py
(lines 114 and 187) but is not defined in the repository sources.  Section 6
specifies `save(patient) -> success` on a durable, immediately consistent
store keyed by the medical record number: the document with the same number
is replaced, a new number is inserted. -/
def save : DB → Patient → DB
  | [], p => [p]
  | q :: qs, p => if q.mrn == p.mrn then p :: qs else q :: save qs p

/-- Python `"..."​.split(" ")` helper: accumulated current token, remaining
characters. -/
def splitSpaceAux : List Char → List Char → List String
  | acc, [] => [String.mk acc.reverse]
  | acc, (' ' :: cs) => String.mk acc.reverse :: splitSpaceAux [] cs
  | acc, (c :: cs) => splitSpaceAux (c :: acc) cs

/-- Python `s.split(" ")`: splits at every single space, keeping empty
tokens (`"a  b"` gives three tokens, `""` gives one empty token). -/
def pySplitSpace (s : String) : List String :=
  splitSpaceAux [] s.data

/-- `add_patient_to_db(in_data)` (health_db_for_giu.py lines 97-114).
Line 110 unpacks `in_data["name"].split(" ")` into exactly two names:
any other token count raises `ValueError`.  Line 111 then calls
`Patient(first_name, last_name, in_data["id"], blood_type=in_data["blood_type"])`,
but `Patient.__init__` (patient_class.py lines 3-4) has no `blood_type`
parameter, so the unexpected keyword argument raises `TypeError` before any
patient is constructed or saved: every call to this function raises.  A
missing `name` key raises `KeyError`; a non-string `name` has no `split`
attribute. -/
def add_patient_to_db (in_data : Dict) (_db : DB) : Except PyError DB :=
  match List.lookup "name" in_data with
  | none => Except.error PyError.keyError
  | some (PyValue.pstr s) =>
    match pySplitSpace s with
    | [_, _] => Except.error PyError.typeError
    | _ => Except.error PyError.valueError
  | some _ => Except.error PyError.attributeError

/-- The result Python's `add_test_to_patient` returns to its route:
the string `"Patient not found"`, or `True` on success. -/
inductive AddResult : Type where
  | msg (s : String)
  | success
deriving DecidableEq

/-- `add_test_to_patient(in_data)` (health_db_for_giu.py lines 160-188):
looks the patient up by `in_data["id"]`; if absent, returns the
`"Patient not found"` message with the store untouched; otherwise appends
`(in_data["test_name"], in_data["test_result"])` via
`Patient.add_test_result` and saves the updated document.  A missing key
raises `KeyError`.  Test values of other shapes are outside the typed data
model of the specification (section 3) and unreachable through the
validated route (`post_add_test` checks `int`/`str`/`int` first); they are
mapped to a `typeError`. -/
def add_test_to_patient (in_data : Dict) (db : DB) :
    Except PyError (AddResult × DB) :=
  match List.lookup "id" in_data with
  | none => Except.error PyError.keyError
  | some idv =>
    match get_patient db idv with
    | none => Except.ok (AddResult.msg "Patient not found", db)
    | some p =>
      match List.lookup "test_name" in_data, List.lookup "test_result" in_data with
      | some (PyValue.pstr tn), some (PyValue.pint tr) =>
        Except.ok (AddResult.success, save db (p.add_test_result tn tr))
      | some _, some _ => Except.error PyError.typeError
      | _, _ => Except.error PyError.keyError

/-- The expected keys of the `/new_patient` route. -/
def new_patient_keys : List String := ["name", "id", "blood_type"]

/-- The expected types of the `/new_patient` route. -/
def new_patient_types : List PyType := [PyType.str, PyType.int, PyType.str]

/-- `post_new_patient()` (health_db_for_giu.py lines 9-53): validates the
shape, then the blood type, then calls `add_patient_to_db`.  A response is
a message string with its status code; the success body
`jsonify({"message": "Patient added", "data": in_data})` is abbreviated to
its message (that branch is unreachable, as `add_patient_to_db` always
raises).  The `blood_type` value is a string whenever this point is
reached, since the shape validation checked it; any other shape is marked
unreachable with a `typeError` sentinel. -/
def post_new_patient (in_data : Dict) (db : DB) :
    Except PyError ((String × Nat) × DB) :=
  match validate_post_input in_data new_patient_keys new_patient_types with
  | Except.error msg => Except.ok ((msg, 400), db)
  | Except.ok _ =>
    match List.lookup "blood_type" in_data with
    | some (PyValue.pstr bt) =>
      match validate_blood_type bt with
      | Except.error msg => Except.ok ((msg, 400), db)
      | Except.ok _ =>
        match add_patient_to_db in_data db with
        | Except.error e => Except.error e
        | Except.ok db2 => Except.ok (("Patient added", 200), db2)
    | _ => Except.error PyError.typeError

/-- The expected keys of the `/add_test` route. -/
def add_test_keys : List String := ["id", "test_name", "test_result"]

/-- The expected types of the `/add_test` route. -/
def add_test_types : List PyType := [PyType.int, PyType.str, PyType.int]

/-- `post_add_test()` (health_db_for_giu.py lines 117-157): validates the
shape, then forwards to `add_test_to_patient`; a non-`True` result comes
back with status 400, success as `"Test added"` with 200. -/
def post_add_test (in_data : Dict) (db : DB) :
    Except PyError ((String × Nat) × DB) :=
  match validate_post_input in_data add_test_keys add_test_types with
  | Except.error msg => Except.ok ((msg, 400), db)
  | Except.ok _ =>
    match add_test_to_patient in_data db with
    | Except.error e => Except.error e
    | Except.ok (AddResult.msg m, db2) => Except.ok ((m, 400), db2)
    | Except.ok (AddResult.success, db2) => Except.ok (("Test added", 200), db2)

/-- `get_get_results(patient_id)` (health_db_for_giu.py lines 217-244):
validates the raw identifier, looks the patient up, and returns either an
error message or the `jsonify`-ed tests list, with the status code. -/
def get_get_results (patient_id : String) (db : DB) :
    Except PyError ((String ⊕ List (String × Int)) × Nat) :=
  match validate_patient_id patient_id with
  | none => Except.ok (Sum.inl "Given patient id is not an integer", 400)
  | some mrn =>
    match get_patient db (PyValue.pint mrn) with
    | none =>
      Except.ok (Sum.inl ("Patient id of " ++ toString mrn ++ " not found in database."), 400)
    | some p => Except.ok (Sum.inr p.tests, 200)

/-! ## Validator lemmas -/

/-- One expected key/type pair is satisfied by the input: the key is present
and its value has exactly the expected type. -/
def keyOk (in_data : Dict) (kt : String × PyType) : Bool :=
  match List.lookup kt.1 in_data with
  | none => false
  | some v => typeOf v == kt.2

theorem keyOk_iff (in_data : Dict) (kt : String × PyType) :
    keyOk in_data kt = true ↔
      ∃ v, List.lookup kt.1 in_data = some v ∧ typeOf v = kt.2 := by
  unfold keyOk
  rcases h : List.lookup kt.1 in_data with _ | v <;> simp [h]

theorem validate_loop_eq_find (in_data : Dict) (l : List (String × PyType)) :
    validate_loop in_data l =
      match l.find? (fun kt => ! keyOk in_data kt) with
      | none => Except.ok ()
      | some kt =>
        match List.lookup kt.1 in_data with
        | none => Except.error (missingKeyMsg kt.1)
        | some _ => Except.error (typeMismatchMsg kt.1 kt.2) := by
  induction l with
  | nil => rfl
  | cons kt rest ih =>
    obtain ⟨k, t⟩ := kt
    rcases h : List.lookup k in_data with _ | v
    · have hk : keyOk in_data (k, t) = false := by simp [keyOk, h]
      rw [List.find?_cons_of_pos _ (by simp [hk])]
      simp [validate_loop, h]
    · rcases ht : (typeOf v == t) with _ | _
      · have hk : keyOk in_data (k, t) = false := by simp [keyOk, h, ht]
        rw [List.find?_cons_of_pos _ (by simp [hk])]
        simp [validate_loop, h, ht]
      · have hk : keyOk in_data (k, t) = true := by simp [keyOk, h, ht]
        rw [List.find?_cons_of_neg _ (by simp [hk])]
        rw [← ih]
        simp [validate_loop, h, ht]

theorem validate_loop_ok_iff (in_data : Dict) (l : List (String × PyType)) :
    validate_loop in_data l = Except.ok () ↔
      ∀ kt ∈ l, keyOk in_data kt = true := by
  induction l with
  | nil => simp [validate_loop]
  | cons kt rest ih =>
    obtain ⟨k, t⟩ := kt
    rcases h : List.lookup k in_data with _ | v
    · simp [validate_loop, h, keyOk]
    · rcases ht : (typeOf v == t) with _ | _
      · simp [validate_loop, h, ht, keyOk]
      · simp [validate_loop, h, ht, ih, keyOk]

theorem lookup_append_single (in_data : Dict) (key k : String) (v : PyValue)
    (h : key ≠ k) :
    List.lookup key (in_data ++ [(k, v)]) = List.lookup key in_data := by
  induction in_data with
  | nil => simp [List.lookup, beq_false_of_ne h]
  | cons a rest ih =>
    rcases ha : (key == a.1) with _ | _ <;>
      simp [List.lookup, ha, ih]

theorem validate_loop_append (in_data : Dict) (k : String) (v : PyValue)
    (l : List (String × PyType)) (h : ∀ kt ∈ l, kt.1 ≠ k) :
    validate_loop (in_data ++ [(k, v)]) l = validate_loop in_data l := by
  induction l with
  | nil => rfl
  | cons kt rest ih =>
    obtain ⟨k2, t⟩ := kt
    have hne : k2 ≠ k := h (k2, t) (List.mem_cons_self _ _)
    have hrest : ∀ kt ∈ rest, kt.1 ≠ k :=
      fun kt hm => h kt (List.mem_cons_of_mem _ hm)
    simp only [validate_loop, lookup_append_single in_data k2 k v hne, ih hrest]

theorem typeOf_eq_int (v : PyValue) (h : typeOf v = PyType.int) :
    ∃ n, v = PyValue.pint n := by
  cases v <;> simp_all [typeOf]

theorem typeOf_eq_str (v : PyValue) (h : typeOf v = PyType.str) :
    ∃ s, v = PyValue.pstr s := by
  cases v <;> simp_all [typeOf]

/-! ## Store lemmas -/

theorem get_patient_mrn (db : DB) (m : Int) (p : Patient)
    (h : get_patient db (PyValue.pint m) = some p) : p.mrn = m := by
  have := List.find?_some h
  simpa [pyNumEq] using this

theorem get_patient_save_self (db : DB) (m : Int) (p p2 : Patient)
    (h : get_patient db (PyValue.pint m) = some p) (hm : p2.mrn = p.mrn) :
    get_patient (save db p2) (PyValue.pint m) = some p2 := by
  have hpm : p.mrn = m := get_patient_mrn db m p h
  induction db with
  | nil => simp [get_patient, get_patient_from_db] at h
  | cons a rest ih =>
    unfold get_patient get_patient_from_db at h ⊢
    rcases ha : (pyNumEq a.mrn (PyValue.pint m)) with _ | _
    · rw [List.find?_cons_of_neg _ (by simp [ha])] at h
      have hane : (a.mrn == p2.mrn) = false := by
        have h1 : (a.mrn == m) = false := by simpa [pyNumEq] using ha
        simp only [hm, hpm]
        exact h1
      rw [save, if_neg (by simp_all)]
      rw [List.find?_cons_of_neg _ (by simp [ha])]
      exact ih h
    · rw [List.find?_cons_of_pos _ (by simp [ha])] at h
      have hap : a = p := by injection h
      have haeq : (a.mrn == p2.mrn) = true := by
        subst hap
        simp [hm]
      rw [save, if_pos (by simp_all)]
      have hp2 : pyNumEq p2.mrn (PyValue.pint m) = true := by
        simp [pyNumEq, hm, hpm]
      rw [List.find?_cons_of_pos _ (by simp [hp2])]

/-- Every call of `add_patient_to_db` raises: the keyword argument
`blood_type` is not a parameter of `Patient.__init__`, and the earlier
steps can only raise other exceptions. -/
theorem add_patient_to_db_raises (in_data : Dict) (db : DB) :
    ∃ e, add_patient_to_db in_data db = Except.error e := by
  unfold add_patient_to_db
  split
  · exact ⟨_, rfl⟩
  · split
    · exact ⟨_, rfl⟩
    · exact ⟨_, rfl⟩
  · exact ⟨_, rfl⟩

/-! ## Claims -/

/-- C1: the claimed round trip — `registerPatient("Ann Ables", 1, "A+")`
then `findPatient(1)` returning the registered patient — fails on the code:
`add_patient_to_db` passes the keyword argument `blood_type` to
`Patient.__init__`, which has no such parameter, so the registration raises
`TypeError` before anything is saved, and `findPatient(1)` on the unchanged
empty store still finds nothing. -/
theorem C1_registration_raises_type_error :
    add_patient_to_db
        [("name", PyValue.pstr "Ann Ables"), ("id", PyValue.pint 1),
         ("blood_type", PyValue.pstr "A+")] []
      = Except.error PyError.typeError
    ∧ get_patient ([] : DB) (PyValue.pint 1) = none :=
  ⟨rfl, rfl⟩

/-- C3: `validate_post_input` examines the expected keys in the given order
and fails on the first invalid one — with the missing-key message naming
exactly that key when it is absent, and the type-mismatch message naming
that key and the expected type when its value has a different type; a
float value never satisfies an integer expectation and vice versa. -/
theorem C3_first_invalid_key_wins :
    (∀ (in_data : Dict) (keys : List String) (types : List PyType),
      validate_post_input in_data keys types =
        match (keys.zip types).find? (fun kt => ! keyOk in_data kt) with
        | none => Except.ok ()
        | some kt =>
          match List.lookup kt.1 in_data with
          | none => Except.error (missingKeyMsg kt.1)
          | some _ => Except.error (typeMismatchMsg kt.1 kt.2))
    ∧ (∀ (k : String) (q : ℚ),
        validate_post_input [(k, PyValue.pfloat q)] [k] [PyType.int]
          = Except.error (typeMismatchMsg k PyType.int))
    ∧ (∀ (k : String) (n : Int),
        validate_post_input [(k, PyValue.pint n)] [k] [PyType.float]
          = Except.error (typeMismatchMsg k PyType.float)) := by
  refine ⟨fun d keys types => validate_loop_eq_find d (keys.zip types), ?_, ?_⟩
  · intro k q
    simp [validate_post_input, validate_loop, List.lookup, typeOf]
  · intro k n
    simp [validate_post_input, validate_loop, List.lookup, typeOf]

/-- C6: `validate_blood_type` succeeds exactly on the eight canonical
case-sensitive blood-type strings; every other string gets the
invalid-blood-type message naming the given value.  `"A+"` and `"AB+"`
succeed while `"a+"` and `"Z+"` fail. -/
theorem C6_blood_type_exact_membership :
    (∀ s : String,
      (validate_blood_type s = Except.ok () ↔
        s ∈ ["A+", "A-", "B+", "B-", "AB+", "AB-", "O+", "O-"])
      ∧ (s ∉ ["A+", "A-", "B+", "B-", "AB+", "AB-", "O+", "O-"] →
          validate_blood_type s
            = Except.error ("Given blood type of " ++ s ++ " is not valid.")))
    ∧ validate_blood_type "A+" = Except.ok ()
    ∧ validate_blood_type "AB+" = Except.ok ()
    ∧ validate_blood_type "a+"
        = Except.error ("Given blood type of " ++ "a+" ++ " is not valid.")
    ∧ validate_blood_type "Z+"
        = Except.error ("Given blood type of " ++ "Z+" ++ " is not valid.") := by
  refine ⟨fun s => ⟨?_, ?_⟩, rfl, rfl, rfl, rfl⟩
  · unfold validate_blood_type valid_blood_types
    rcases h : decide (s ∈ ["A+", "A-", "B+", "B-", "AB+", "AB-", "O+", "O-"]) with _ | _
    · simp_all
    · simp_all
  · intro h
    simp [validate_blood_type, valid_blood_types, h]

/-- C7: `validate_post_input` returns success exactly when every expected
key is present in the input with exactly the expected type; appending an
extra key the expected list does not mention never changes the result. -/
theorem C7_shape_success_iff :
    (∀ (in_data : Dict) (keys : List String) (types : List PyType),
      validate_post_input in_data keys types = Except.ok () ↔
        ∀ kt ∈ keys.zip types,
          ∃ v, List.lookup kt.1 in_data = some v ∧ typeOf v = kt.2)
    ∧ (∀ (in_data : Dict) (keys : List String) (types : List PyType)
        (k : String) (v : PyValue), k ∉ keys →
        validate_post_input (in_data ++ [(k, v)]) keys types
          = validate_post_input in_data keys types) := by
  constructor
  · intro d keys types
    rw [validate_post_input, validate_loop_ok_iff]
    constructor
    · intro h kt hm
      exact (keyOk_iff d kt).mp (h kt hm)
    · intro h kt hm
      exact (keyOk_iff d kt).mpr (h kt hm)
  · intro d keys types k v hk
    apply validate_loop_append
    intro kt hm
    intro hc
    exact hk (hc ▸ (List.of_mem_zip hm).1)

/-- C8: `validate_patient_id` parses its argument with Python `int`:
`"42"` gives `42`, a negative literal parses, a string that is not an
integer literal (such as `"abc"` or `"4.2"`) gives the non-fatal failure
value, and there is no range restriction — a 30-digit literal parses
exactly. -/
theorem C8_identifier_parse :
    validate_patient_id "42" = some 42
    ∧ validate_patient_id "abc" = none
    ∧ validate_patient_id "4.2" = none
    ∧ validate_patient_id "-7" = some (-7)
    ∧ validate_patient_id "123456789012345678901234567890"
        = some 123456789012345678901234567890 :=
  ⟨rfl, rfl, rfl, rfl, rfl⟩

/-- C9: `Patient.__eq__` holds exactly when `first_name`, `last_name`,
`mrn` and `age` all agree; the `tests` sequences are not compared, so two
patients agreeing on those four fields compare equal whatever their
tests. -/
theorem C9_patient_eq_ignores_tests :
    (∀ p q : Patient,
      patientEq p q = true ↔
        p.first_name = q.first_name ∧ p.last_name = q.last_name
          ∧ p.mrn = q.mrn ∧ p.age = q.age)
    ∧ (∀ (f l : String) (m a : Int) (t1 t2 : List (String × Int)),
        patientEq ⟨f, l, m, a, t1⟩ ⟨f, l, m, a, t2⟩ = true) := by
  constructor
  · intro p q
    simp [patientEq, and_assoc]
  · intro f l m a t1 t2
    simp [patientEq]

/-- C10: for a patient whose age is the `0` "unknown" sentinel, `is_minor`
returns `None` — neither true nor false — and `create_output` therefore
renders the status line as `Adult`, since `None` is falsy. -/
theorem C10_unknown_age_renders_adult (p : Patient) (h : p.age = 0) :
    p.is_minor = none
    ∧ p.create_output
        = "Name: " ++ p.first_name ++ " " ++ p.last_name ++ "\n"
            ++ "MRN: " ++ toString p.mrn ++ "\n"
            ++ "Status: " ++ "Adult" ++ "\n"
            ++ "Test Results: " ++ reprTests p.tests ++ "\n" := by
  have hm : p.is_minor = none := by simp [Patient.is_minor, h]
  refine ⟨hm, ?_⟩
  unfold Patient.create_output
  rw [hm]
  rfl

/-- Witness for C10 at a concrete patient of unknown age. -/
theorem C10_witness :
    (Patient.init "Ann" "Ables" 1 0 none).is_minor = none
    ∧ (Patient.init "Ann" "Ables" 1 0 none).create_output
        = "Name: Ann Ables\nMRN: 1\nStatus: Adult\nTest Results: []\n" := by
  have h := C10_unknown_age_renders_adult (Patient.init "Ann" "Ables" 1 0 none) rfl
  refine ⟨h.1, ?_⟩
  rw [h.2]
  rfl

/-- C4: when no stored patient has the identifier under the input's `id`
key, `add_test_to_patient` returns the `"Patient not found"` message and
hands back the very same store — no partial write. -/
theorem C4_append_not_found_no_mutation (in_data : Dict) (db : DB)
    (idv : PyValue) (h1 : List.lookup "id" in_data = some idv)
    (h2 : get_patient db idv = none) :
    add_test_to_patient in_data db
      = Except.ok (AddResult.msg "Patient not found", db) := by
  unfold add_test_to_patient
  rw [h1]
  simp only [h2]

/-- Witness for C4: `appendTestResult(999, "x", 1)` on the empty store. -/
theorem C4_witness :
    add_test_to_patient
        [("id", PyValue.pint 999), ("test_name", PyValue.pstr "x"),
         ("test_result", PyValue.pint 1)] []
      = Except.ok (AddResult.msg "Patient not found", ([] : DB)) :=
  C4_append_not_found_no_mutation _ _ (PyValue.pint 999) rfl rfl

/-- The store a successful `add_test_to_patient` leaves behind, with a
failed call leaving the store as it was (used to chain concrete calls). -/
def runAddTest (in_data : Dict) (db : DB) : DB :=
  match add_test_to_patient in_data db with
  | Except.ok pr => pr.2
  | Except.error _ => db

/-- C5: on a store holding a patient with the given number,
`add_test_to_patient` succeeds, appending exactly the pair
`(test_name, test_result)` at the end of that patient's `tests` and keeping
every prior entry in order; reading the patient back gives the extended
list.  Concretely, appending `("glucose", 90)` and then
`("cholesterol", 180)` to patient 1 makes `listTestResults` return
`[("glucose", 90), ("cholesterol", 180)]` in append order. -/
theorem C5_append_preserves_order :
    (∀ (in_data : Dict) (db : DB) (mrn : Int) (p : Patient) (tn : String)
        (tr : Int),
      List.lookup "id" in_data = some (PyValue.pint mrn) →
      List.lookup "test_name" in_data = some (PyValue.pstr tn) →
      List.lookup "test_result" in_data = some (PyValue.pint tr) →
      get_patient db (PyValue.pint mrn) = some p →
      add_test_to_patient in_data db
          = Except.ok (AddResult.success,
              save db (setTests p (p.tests ++ [(tn, tr)])))
        ∧ get_patient (save db (setTests p (p.tests ++ [(tn, tr)])))
            (PyValue.pint mrn) = some (setTests p (p.tests ++ [(tn, tr)])))
    ∧ get_get_results "1"
        (runAddTest
          [("id", PyValue.pint 1), ("test_name", PyValue.pstr "cholesterol"),
           ("test_result", PyValue.pint 180)]
          (runAddTest
            [("id", PyValue.pint 1), ("test_name", PyValue.pstr "glucose"),
             ("test_result", PyValue.pint 90)]
            [Patient.init "Ann" "Ables" 1 0 none]))
      = Except.ok (Sum.inr [("glucose", 90), ("cholesterol", 180)], 200) := by
  constructor
  · intro in_data db mrn p tn tr h1 h2 h3 h4
    constructor
    · unfold add_test_to_patient
      rw [h1]
      simp only [h4, h2, h3]
      rfl
    · exact get_patient_save_self db mrn p _ h4 rfl
  · rfl

/-- Witness for C5's general part: one append to a one-patient store. -/
theorem C5_witness :
    add_test_to_patient
        [("id", PyValue.pint 1), ("test_name", PyValue.pstr "glucose"),
         ("test_result", PyValue.pint 90)]
        [Patient.init "Ann" "Ables" 1 0 none]
      = Except.ok (AddResult.success,
          [⟨"Ann", "Ables", 1, 0, [("glucose", 90)]⟩])
    ∧ get_patient [(⟨"Ann", "Ables", 1, 0, [("glucose", 90)]⟩ : Patient)]
        (PyValue.pint 1) = some ⟨"Ann", "Ables", 1, 0, [("glucose", 90)]⟩ := by
  have h := C5_append_preserves_order.1
    [("id", PyValue.pint 1), ("test_name", PyValue.pstr "glucose"),
     ("test_result", PyValue.pint 90)]
    [Patient.init "Ann" "Ables" 1 0 none] 1 (Patient.init "Ann" "Ables" 1 0 none)
    "glucose" 90 rfl rfl rfl rfl
  exact ⟨h.1, h.2⟩

/-- C2 fails as stated: a request whose `name` value does not split into
exactly two space-separated tokens passes every validator (all keys
present, right types, valid blood type), yet the new-patient operation
raises an uncaught `ValueError` at the tuple unpacking of
`in_data["name"].split(" ")` instead of returning a typed error result. -/
theorem C2_counterexample_unpack_raises :
    post_new_patient
        [("name", PyValue.pstr "Ann"), ("id", PyValue.pint 1),
         ("blood_type", PyValue.pstr "A+")] []
      = Except.error PyError.valueError := rfl

/-- C2 amended: the add-test and get-results operations never raise on any
input — their validators turn every malformed input into a typed message —
and the new-patient operation either returns a typed response or raises
exactly the exception `add_patient_to_db` raises (a `ValueError` from the
name unpacking, or the `TypeError` from the unexpected `blood_type`
keyword argument). -/
theorem C2_amended_no_uncaught_faults_except_registration :
    (∀ (in_data : Dict) (db : DB), ∃ r, post_add_test in_data db = Except.ok r)
    ∧ (∀ (patient_id : String) (db : DB),
        ∃ r, get_get_results patient_id db = Except.ok r)
    ∧ (∀ (in_data : Dict) (db : DB),
        (∃ r, post_new_patient in_data db = Except.ok r)
        ∨ (∃ e, post_new_patient in_data db = Except.error e
            ∧ add_patient_to_db in_data db = Except.error e)) := by
  refine ⟨?_, ?_, ?_⟩
  · intro in_data db
    rcases h : validate_post_input in_data add_test_keys add_test_types with u | msg
    case error => exact ⟨((u, 400), db), by simp [post_add_test, h]⟩
    case ok =>
      have hok : ∀ kt ∈ add_test_keys.zip add_test_types,
          keyOk in_data kt = true := by
        rw [validate_post_input] at h
        exact (validate_loop_ok_iff in_data _).mp h
      obtain ⟨v1, hl1, ht1⟩ := (keyOk_iff in_data _).mp
        (hok ("id", PyType.int) (by simp [add_test_keys, add_test_types]))
      obtain ⟨i, rfl⟩ := typeOf_eq_int v1 ht1
      obtain ⟨v2, hl2, ht2⟩ := (keyOk_iff in_data _).mp
        (hok ("test_name", PyType.str) (by simp [add_test_keys, add_test_types]))
      obtain ⟨tn, rfl⟩ := typeOf_eq_str v2 ht2
      obtain ⟨v3, hl3, ht3⟩ := (keyOk_iff in_data _).mp
        (hok ("test_result", PyType.int) (by simp [add_test_keys, add_test_types]))
      obtain ⟨tr, rfl⟩ := typeOf_eq_int v3 ht3
      have hadd : ∃ res, add_test_to_patient in_data db = Except.ok res := by
        unfold add_test_to_patient
        rw [hl1]
        rcases hgp : get_patient db (PyValue.pint i) with _ | p
        · exact ⟨(AddResult.msg "Patient not found", db), by simp [hgp]⟩
        · exact ⟨(AddResult.success, save db (p.add_test_result tn tr)),
            by simp [hgp, hl2, hl3]⟩
      obtain ⟨⟨res, db2⟩, hres⟩ := hadd
      cases res with
      | msg m => exact ⟨((m, 400), db2), by simp [post_add_test, h, hres]⟩
      | success =>
        exact ⟨(("Test added", 200), db2), by simp [post_add_test, h, hres]⟩
  · intro patient_id db
    unfold get_get_results
    rcases validate_patient_id patient_id with _ | mrn
    · exact ⟨_, rfl⟩
    · rcases hgp : get_patient db (PyValue.pint mrn) with _ | p
      · exact ⟨(Sum.inl ("Patient id of " ++ toString mrn
            ++ " not found in database."), 400), by simp [hgp]⟩
      · exact ⟨(Sum.inr p.tests, 200), by simp [hgp]⟩
  · intro in_data db
    rcases h : validate_post_input in_data new_patient_keys new_patient_types with u | msg
    case error => exact Or.inl ⟨((u, 400), db), by simp [post_new_patient, h]⟩
    case ok =>
      have hok : ∀ kt ∈ new_patient_keys.zip new_patient_types,
          keyOk in_data kt = true := by
        rw [validate_post_input] at h
        exact (validate_loop_ok_iff in_data _).mp h
      obtain ⟨v1, hl1, ht1⟩ := (keyOk_iff in_data _).mp
        (hok ("blood_type", PyType.str) (by simp [new_patient_keys, new_patient_types]))
      obtain ⟨bt, rfl⟩ := typeOf_eq_str v1 ht1
      rcases hbt : validate_blood_type bt with u2 | msg2
      case error =>
        exact Or.inl ⟨((u2, 400), db), by simp [post_new_patient, h, hl1, hbt]⟩
      case ok =>
        obtain ⟨e, he⟩ := add_patient_to_db_raises in_data db
        refine Or.inr ⟨e, ?_, he⟩
        simp [post_new_patient, h, hl1, hbt, he]
